import Mathlib

/-!
Shallow embedding of the Salesforce add-in's CRM client layer
(src/salesforce-service.js) and of the taskpane session helpers
(src/unnamed/part_000), together with theorems settling the frozen claims.

Modelling conventions:
* JavaScript string-or-absent values are `Option String`; JS truthiness of
  such a value is `truthyS` (absent, and the empty string, are falsy).
* The persisted localStorage slot `salesforceSession` is `Persisted`:
  absent, present-but-not-JSON (on which `JSON.parse` throws), or a parsed
  session object.
* `fetch` responses are environment records consumed in program order; a
  response's `parses` field tells whether `response.json()` succeeds
  (a 204 response has an empty body, which is not valid JSON).
* Thrown JS errors become explicit error constructors; `async` sequencing
  becomes ordinary sequencing.
-/

namespace Sf

/-- JS truthiness of a string-or-absent value: `undefined`/`null` and the
empty string are falsy, every other string is truthy. -/
def truthyS : Option String → Bool
  | none => false
  | some s => s ≠ ""

/-- The parsed shape of the persisted `salesforceSession` JSON object
(fields as written by `exchangeCodeForToken` / `simulateAuthentication`). -/
structure SessionData where
  access_token : Option String := none
  refresh_token : Option String := none
  instance_url : Option String := none
  issued_at : Option String := none
  signature : Option String := none
deriving Repr, DecidableEq

/-- The state of the persisted localStorage slot `salesforceSession`:
no item, an item that is not valid JSON (`JSON.parse` throws on it), or an
item parsing to a session object. -/
inductive Persisted where
  | empty
  | malformed
  | valid (s : SessionData)
deriving Repr, DecidableEq

/-- Decimal digit run to a number (helper for `parseIntJS`). -/
def digitsVal (cs : List Char) : Nat :=
  cs.foldl (fun a c => a * 10 + (c.toNat - 48)) 0

/-- JS `parseInt` on a string (radix 10): skip leading whitespace, optional
sign, then the longest digit prefix; `none` models `NaN` (no digit found). -/
def parseIntJS (s : String) : Option Int :=
  let cs := s.data.dropWhile (fun c => c = ' ' || c = '\t' || c = '\n')
  let core : List Char → Option Nat := fun l =>
    let ds := l.takeWhile Char.isDigit
    if ds.isEmpty then none else some (digitsVal ds)
  match cs with
  | '-' :: rest => (core rest).map (fun n => -(n : Int))
  | '+' :: rest => (core rest).map (fun n => (n : Int))
  | _ => (core cs).map (fun n => (n : Int))

/-- `isTokenExpired(session)` from the taskpane script: returns true when
`session.issued_at` is falsy; otherwise computes
`(now - parseInt(session.issued_at)) > 2*60*60*1000`.  When `parseInt`
yields `NaN` the JS comparison `NaN > n` is false, so the function returns
false. `now` is the value of `Date.now()` at the call. -/
def isTokenExpired (session : SessionData) (now : Int) : Bool :=
  match session.issued_at with
  | none => true
  | some s =>
    if s = "" then true
    else
      match parseIntJS s with
      | none => false
      | some issuedAt => decide ((now - issuedAt) > 2 * 60 * 60 * 1000)

/-- `isAuthenticated()`: false when no persisted item; on a parse failure the
catch returns false; otherwise `!!(sessionData.access_token && sessionData.instance_url)`. -/
def isAuthenticated (store : Persisted) : Bool :=
  match store with
  | .empty => false
  | .malformed => false
  | .valid s => truthyS s.access_token && truthyS s.instance_url

/-- `getSessionInfo()`: `null` when no persisted item, `null` (via catch) on a
parse failure, otherwise the parsed session object. -/
def getSessionInfo (store : Persisted) : Option SessionData :=
  match store with
  | .empty => none
  | .malformed => none
  | .valid s => some s

/-- Modelled from the spec (§3 invariant, compared against the code in claim
C9): a session is usable iff `accessToken` and `instanceUrl` are both present
and `issuedAt` is within the 2-hour validity window from issuance. -/
def usableSessionSpec (s : SessionData) (now : Int) : Bool :=
  truthyS s.access_token && truthyS s.instance_url && !(isTokenExpired s now)

/-! ### Request Executor (`apiCall` and `refreshToken`) -/

/-- The mutable fields of `SalesforceService` that `apiCall`/`refreshToken`
read and write, together with the persisted localStorage slot. -/
structure SvcState where
  accessToken : Option String := none
  instanceUrl : Option String := none
  store : Persisted := .empty
deriving Repr, DecidableEq

/-- One `fetch` response: HTTP status, whether `response.json()` succeeds
(`parses`), the parsed JSON payload when it does (abstracted to a string
tag `val`), and the body text used by `response.text()`. -/
structure FetchResp where
  status : Nat := 200
  parses : Bool := true
  val : String := ""
  text : String := ""
deriving Repr, DecidableEq

/-- The token-endpoint `fetch` response consumed by `refreshToken`: status,
whether its body parses as JSON, and the token fields used on success. -/
structure RefreshResp where
  status : Nat := 200
  parses : Bool := true
  access_token : Option String := none
  issued_at : Option String := none
deriving Repr, DecidableEq

/-- The remote responses one `apiCall` invocation can consume, in program
order: the original request's response, the token-endpoint response (used
only if a refresh runs), and the retry's response (used only if the retry
runs). -/
structure ApiEnv where
  resp1 : FetchResp := {}
  refreshResp : RefreshResp := {}
  resp2 : FetchResp := {}
deriving Repr, DecidableEq

/-- `response.ok` in JS: status in the range 200-299. -/
def respOk (status : Nat) : Bool := 200 ≤ status && status < 300

/-- Errors `apiCall` can raise to its caller. `syntaxError` is a JS
`SyntaxError` escaping from an unguarded `JSON.parse`. -/
inductive ApiError where
  | notAuthenticated
  | syntaxError
  | authExpired
  | apiCallFailed (status : Nat) (detail : String)
deriving Repr, DecidableEq

/-- Errors `refreshToken` can raise: no session / no refresh token,
a failed token request (after clearing the store), or a JSON error from
parsing the stored session or the token response body. -/
inductive RefreshError where
  | noRefreshToken
  | refreshExpired
  | jsonError
deriving Repr, DecidableEq

/-- A value `apiCall` can return: the literal empty object produced at
status 204, or a parsed response body. -/
inductive ApiResult where
  | emptyObj
  | parsed (v : String)
deriving Repr, DecidableEq

/-- The observable outcome of one `apiCall` invocation: its result or error,
the final service/store state, how many fetches of the API endpoint were
issued (the token-endpoint fetch inside `refreshToken` is not an API
attempt), and whether the 401-triggered retry fetch was issued. -/
structure ApiOutcome where
  result : Except ApiError ApiResult
  state : SvcState
  attempts : Nat
  retried : Bool
deriving Repr

/-- The credential-resolution prologue of `apiCall` (lines 158-166): if
`this.accessToken` is falsy, `JSON.parse(localStorage.getItem(...))` runs
unguarded — an absent item parses to `null` (the guard then throws
`Not authenticated`), a malformed item makes `JSON.parse` throw, and a
parsed session with truthy `access_token` is copied into the service. -/
def resolveCreds (st : SvcState) : Except ApiError SvcState :=
  if truthyS st.accessToken then .ok st
  else
    match st.store with
    | .empty => .error .notAuthenticated
    | .malformed => .error .syntaxError
    | .valid s =>
      if truthyS s.access_token then
        .ok { st with accessToken := s.access_token, instanceUrl := s.instance_url }
      else .error .notAuthenticated

/-- `refreshToken(clientId)` (lines 115-152), as called from `apiCall`:
parse the stored session (throws on malformed data), require a truthy
`refresh_token`, fetch the token endpoint; on a non-ok status remove the
stored session and throw; on success parse the body and write
`access_token`/`issued_at` through to the service and the store.
Returns the error (if any) paired with the state after the call. -/
def refreshTokenM (st : SvcState) (resp : RefreshResp) : Option RefreshError × SvcState :=
  match st.store with
  | .empty => (some .noRefreshToken, st)
  | .malformed => (some .jsonError, st)
  | .valid s =>
    if !(truthyS s.refresh_token) then (some .noRefreshToken, st)
    else if !(respOk resp.status) then
      (some .refreshExpired, { st with store := .empty })
    else if !resp.parses then (some .jsonError, st)
    else
      (none, { st with accessToken := resp.access_token,
                       store := .valid { s with access_token := resp.access_token,
                                                issued_at := resp.issued_at } })

/-- The retry issued inside the 401 branch of `apiCall` (lines 190-194):
a non-ok retry status throws, and otherwise `retryResponse.json()` is
always attempted — a body that does not parse (e.g. the empty body of a
204) throws.  Both throws are caught by the surrounding catch, which is
applied in `handle401`. -/
def retryPhase (resp2 : FetchResp) : Except RefreshError ApiResult :=
  if !(respOk resp2.status) then .error .jsonError
  else if resp2.parses then .ok (.parsed resp2.val)
  else .error .jsonError

/-- The 401 branch of `apiCall` (lines 184-198): one `refreshToken()` then
one retry; any throw inside the branch (refresh failure, non-ok retry
status, retry body parse failure) is caught and replaced by the
`Authentication expired` error. -/
def handle401 (st1 : SvcState) (env : ApiEnv) : ApiOutcome :=
  match refreshTokenM st1 env.refreshResp with
  | (some _, st2) => ⟨.error .authExpired, st2, 1, false⟩
  | (none, st2) =>
    match retryPhase env.resp2 with
    | .ok r => ⟨.ok r, st2, 2, true⟩
    | .error _ => ⟨.error .authExpired, st2, 2, true⟩

/-- The response handling of `apiCall` after the original fetch
(lines 184-210): 401 goes to the refresh-and-retry branch; other non-ok
statuses throw `API call failed`; 204 returns the empty object without
touching the body; otherwise the body is parsed (an unparseable body makes
`response.json()` throw a SyntaxError that propagates). -/
def mainPhase (st1 : SvcState) (env : ApiEnv) : ApiOutcome :=
  if env.resp1.status = 401 then handle401 st1 env
  else if !(respOk env.resp1.status) then
    ⟨.error (.apiCallFailed env.resp1.status env.resp1.text), st1, 1, false⟩
  else if env.resp1.status = 204 then ⟨.ok .emptyObj, st1, 1, false⟩
  else if env.resp1.parses then ⟨.ok (.parsed env.resp1.val), st1, 1, false⟩
  else ⟨.error .syntaxError, st1, 1, false⟩

/-- `apiCall(endpoint, method, data)` (lines 157-211) over a given state and
remote-response environment: resolve credentials (possibly reading through
the store), issue the original request, then handle the response. -/
def apiCall (st : SvcState) (env : ApiEnv) : ApiOutcome :=
  match resolveCreds st with
  | .error e => ⟨.error e, st, 0, false⟩
  | .ok st1 => mainPhase st1 env

/-! ### `findRelatedRecords` -/

/-- A run of `n` spaces (the template literals in the source keep their
multi-line indentation inside the query strings). -/
def sp (n : Nat) : String := String.mk (List.replicate n ' ')

/-- A single-quote character, written without an apostrophe literal. -/
def sq : String := String.mk [Char.ofNat 39]

/-- JS <code>email =&gt; `${sq}${email}${sq}`</code>: wrap a value in single quotes. -/
def quoteId (s : String) : String := sq ++ s ++ sq

/-- `emailAddresses.map(email => ...).join(",")` from line 509. -/
def emailListStr (emails : List String) : String :=
  String.intercalate "," (emails.map quoteId)

/-- The minimal shape of a `Contact.Account` sub-object the code reads. -/
structure AccountRef where
  Id : Option String := none
deriving Repr, DecidableEq

/-- A remote record as consumed by `findRelatedRecords`: an identifier and,
for contacts, an optional linked-account sub-object. -/
structure SfRecord where
  Id : String := ""
  Account : Option AccountRef := none
deriving Repr, DecidableEq

/-- A SOQL query result body: the `records` field may be absent. -/
structure QueryResult where
  records : Option (List SfRecord) := none
deriving Repr

/-- Outcome of one `this.query(...)` dispatch: `.error ()` models the
promise rejecting (the query throwing), `.ok` a resolved result. -/
abbrev QueryOutcome := Except Unit QueryResult

/-- The responses the four queries `findRelatedRecords` can dispatch would
receive, in program order: contacts, accounts, opportunities, leads. -/
structure RelatedEnv where
  contactQ : QueryOutcome := .ok {}
  accountQ : QueryOutcome := .ok {}
  oppQ : QueryOutcome := .ok {}
  leadQ : QueryOutcome := .ok {}

/-- The grouped result object of `findRelatedRecords` (lines 497-502). -/
structure RelatedResults where
  contacts : List SfRecord := []
  leads : List SfRecord := []
  accounts : List SfRecord := []
  opportunities : List SfRecord := []
deriving Repr, DecidableEq

/-- Which of the four queries a dispatch belongs to. -/
inductive QueryKind where
  | contact
  | account
  | opportunity
  | lead
deriving Repr, DecidableEq

/-- The contact SOQL template of lines 512-514 (with the template literal's
embedded newlines and indentation). -/
def relatedContactQuery (emailList : String) : String :=
  "SELECT Id, Name, Email, Account.Name, Account.Id, Title \n" ++ sp 33 ++
  "FROM Contact \n" ++ sp 33 ++
  "WHERE Email IN (" ++ emailList ++ ")"

/-- The account SOQL template of lines 529-531. -/
def relatedAccountQuery (accountList : String) : String :=
  "SELECT Id, Name, Type, Industry \n" ++ sp 41 ++
  "FROM Account \n" ++ sp 41 ++
  "WHERE Id IN (" ++ accountList ++ ")"

/-- The opportunity SOQL template of lines 539-544. -/
def relatedOppQuery (accountList : String) : String :=
  "SELECT Id, Name, StageName, Amount, CloseDate, Account.Name \n" ++ sp 37 ++
  "FROM Opportunity \n" ++ sp 37 ++
  "WHERE AccountId IN (" ++ accountList ++ ") \n" ++ sp 37 ++
  "AND IsClosed = false \n" ++ sp 37 ++
  "ORDER BY CloseDate ASC \n" ++ sp 37 ++
  "LIMIT 10"

/-- The lead SOQL template of lines 554-557. -/
def relatedLeadQuery (emailList : String) : String :=
  "SELECT Id, Name, Email, Company, Title, Status \n" ++ sp 30 ++
  "FROM Lead \n" ++ sp 30 ++
  "WHERE Email IN (" ++ emailList ++ ") \n" ++ sp 30 ++
  "AND IsConverted = false"

/-- `[...new Set(xs)]` in JS: de-duplicate, keeping first occurrences in
order. -/
def dedupFirst : List String → List String
  | [] => []
  | x :: xs => x :: dedupFirst (xs.filter (fun y => y ≠ x))
termination_by l => l.length
decreasing_by
  simp only [List.length_cons]
  exact Nat.lt_succ_of_le (List.length_filter_le _ _)

/-- `contactResult.records.filter(c => c.Account && c.Account.Id).map(c => c.Account.Id)`
(lines 521-523), fused into one pass. -/
def accountIdsOf (recs : List SfRecord) : List String :=
  recs.filterMap (fun c =>
    match c.Account with
    | some a => if truthyS a.Id then a.Id else none
    | none => none)

/-- The final lead query of the `try` block (lines 554-562): dispatch the
lead SOQL; on success copy a present `records` field into `results.leads`;
a throw is caught by the enclosing catch, which returns the results
accumulated so far.  Returns the results and the dispatch trace. -/
def leadPhase (acc : RelatedResults) (tr : List (QueryKind × String)) (q : String)
    (resp : QueryOutcome) : RelatedResults × List (QueryKind × String) :=
  match resp with
  | .error _ => (acc, tr ++ [(.lead, q)])
  | .ok r =>
    match r.records with
    | some recs => ({ acc with leads := recs }, tr ++ [(.lead, q)])
    | none => (acc, tr ++ [(.lead, q)])

/-- `findRelatedRecords(emailAddresses)` (lines 496-569): empty/absent input
returns the all-empty groups without dispatching; otherwise the contact,
(conditionally) account and opportunity, and lead queries run in one `try`
block whose catch returns whatever groups were populated before the throw.
The second component is the trace of dispatched queries, in order. -/
def findRelatedRecords (emailAddresses : Option (List String)) (env : RelatedEnv) :
    RelatedResults × List (QueryKind × String) :=
  let results : RelatedResults := {}
  match emailAddresses with
  | none => (results, [])
  | some emails =>
    if emails.length = 0 then (results, [])
    else
      let emailList := emailListStr emails
      let contactQuery := relatedContactQuery emailList
      let leadQuery := relatedLeadQuery emailList
      match env.contactQ with
      | .error _ => (results, [(.contact, contactQuery)])
      | .ok cres =>
        match cres.records with
        | none => leadPhase results [(.contact, contactQuery)] leadQuery env.leadQ
        | some recs =>
          let results1 := { results with contacts := recs }
          let accountIds := accountIdsOf recs
          if accountIds.length > 0 then
            let accountList := String.intercalate "," ((dedupFirst accountIds).map quoteId)
            let accountQuery := relatedAccountQuery accountList
            let oppQuery := relatedOppQuery accountList
            match env.accountQ with
            | .error _ => (results1, [(.contact, contactQuery), (.account, accountQuery)])
            | .ok ares =>
              let results2 :=
                match ares.records with
                | some arecs => { results1 with accounts := arecs }
                | none => results1
              match env.oppQ with
              | .error _ =>
                (results2, [(.contact, contactQuery), (.account, accountQuery),
                            (.opportunity, oppQuery)])
              | .ok ores =>
                let results3 :=
                  match ores.records with
                  | some orecs => { results2 with opportunities := orecs }
                  | none => results2
                leadPhase results3
                  [(.contact, contactQuery), (.account, accountQuery), (.opportunity, oppQuery)]
                  leadQuery env.leadQ
          else
            leadPhase results1 [(.contact, contactQuery)] leadQuery env.leadQ

/-! ### `createContact` and `createLead` payloads -/

/-- The `Remove empty fields` pass (lines 442-446 and 468-472): the object
is built field by field and every key whose value is falsy is deleted;
insertion order of the remaining keys is preserved. -/
def keepTruthy (fields : List (String × Option String)) : List (String × String) :=
  fields.filterMap (fun kv =>
    match kv.2 with
    | some v => if v = "" then none else some (kv.1, v)
    | none => none)

/-- Input to `createContact` (JS object fields, each possibly absent). -/
structure ContactInput where
  firstName : Option String := none
  lastName : Option String := none
  email : Option String := none
  phone : Option String := none
  title : Option String := none
  department : Option String := none
  description : Option String := none
deriving Repr, DecidableEq

/-- The create payload built by `createContact` (lines 430-448), as the
ordered key-value list of the object passed to `createRecord`. -/
def createContactPayload (d : ContactInput) : List (String × String) :=
  keepTruthy
    [("FirstName", d.firstName), ("LastName", d.lastName), ("Email", d.email),
     ("Phone", d.phone), ("Title", d.title), ("Department", d.department),
     ("Description", d.description)]

/-- Input to `createLead`. -/
structure LeadInput where
  firstName : Option String := none
  lastName : Option String := none
  email : Option String := none
  phone : Option String := none
  company : Option String := none
  title : Option String := none
  status : Option String := none
  source : Option String := none
  description : Option String := none
deriving Repr, DecidableEq

/-- JS `x || dflt` on a string-or-absent value: the default replaces a falsy
value. -/
def jsOr (v : Option String) (dflt : String) : Option String :=
  match v with
  | none => some dflt
  | some s => if s = "" then some dflt else some s

/-- The create payload built by `createLead` (lines 454-474): `Status` and
`LeadSource` are defaulted with `||` before the remove-empty pass. -/
def createLeadPayload (d : LeadInput) : List (String × String) :=
  keepTruthy
    [("FirstName", d.firstName), ("LastName", d.lastName), ("Email", d.email),
     ("Phone", d.phone), ("Company", d.company), ("Title", d.title),
     ("Status", jsOr d.status "Open - Not Contacted"),
     ("LeadSource", jsOr d.source "Email"),
     ("Description", d.description)]

/-- Spec-shaped description of one optional payload field: mapped to its
remote name when non-empty, omitted when empty or absent. -/
def specOmitEmpty (k : String) (v : Option String) : List (String × String) :=
  match v with
  | none => []
  | some s => if s = "" then [] else [(k, s)]

/-! ### Concrete states, sessions and environments used by the theorems -/

/-- A lead record the Lead query would return. -/
def leadRecC1 : SfRecord := { Id := "00Q1" }

/-- Environment in which the Contact query fails and the Lead query would
succeed with one record. -/
def envC1 : RelatedEnv :=
  { contactQ := .error (), leadQ := .ok { records := some [leadRecC1] } }

/-- A stored session whose `issued_at` is present but not a number. -/
def sessionUnparseable : SessionData :=
  { access_token := some "tok", instance_url := some "url",
    issued_at := some "not-a-number" }

/-- A stored session issued at timestamp 0. -/
def sessionIssuedAt0 : SessionData :=
  { access_token := some "tok", instance_url := some "url", issued_at := some "0" }

/-- A persisted session without a refresh token. -/
def sessNoRT : SessionData :=
  { access_token := some "tok", instance_url := some "url" }

/-- A persisted session with a refresh token. -/
def sessWithRT : SessionData :=
  { access_token := some "tok", refresh_token := some "rt",
    instance_url := some "url" }

/-- Service state: cached credentials, persisted session without a refresh
token. -/
def stNoRefresh : SvcState :=
  { accessToken := some "tok", instanceUrl := some "url", store := .valid sessNoRT }

/-- Service state: cached credentials, persisted session with a refresh
token. -/
def stRefreshable : SvcState :=
  { accessToken := some "tok", instanceUrl := some "url", store := .valid sessWithRT }

/-- Environment: the original request answers 401 (refresh/retry responses
left at their defaults, unused when the refresh throws first). -/
def env401 : ApiEnv := { resp1 := { status := 401 } }

/-- Environment: the original request answers 401 and the token endpoint
also answers 401 (two consecutive 401 responses). -/
def envDouble401 : ApiEnv :=
  { resp1 := { status := 401 }, refreshResp := { status := 401 } }

/-- Environment: original 401, successful refresh, then a 204 retry
response whose empty body does not parse as JSON. -/
def envRetry204 : ApiEnv :=
  { resp1 := { status := 401 },
    refreshResp := { access_token := some "tok2", issued_at := some "1" },
    resp2 := { status := 204, parses := false } }

/-- Environment: the original request answers 204. -/
def env204 : ApiEnv := { resp1 := { status := 204, parses := false } }

/-- An arbitrary fixed environment (all responses at their defaults). -/
def envAny : ApiEnv := {}

/-- A stored session with credentials present but no `issued_at`. -/
def sessionNoIssuedAt : SessionData :=
  { access_token := some "tok", instance_url := some "url" }

/-- A freshly issued session with all credential fields present. -/
def sessionFresh : SessionData :=
  { access_token := some "tok", refresh_token := some "rt",
    instance_url := some "url", issued_at := some "0" }

/-! ### Helper lemmas -/

theorem keepTruthy_nil : keepTruthy [] = [] := rfl

theorem keepTruthy_cons (k : String) (v : Option String)
    (rest : List (String × Option String)) :
    keepTruthy ((k, v) :: rest) = specOmitEmpty k v ++ keepTruthy rest := by
  cases v with
  | none => simp [keepTruthy, specOmitEmpty]
  | some s =>
    by_cases h : s = "" <;> simp [keepTruthy, specOmitEmpty, h]

theorem specOmit_jsOr (k : String) (v : Option String) (dflt : String)
    (hd : dflt ≠ "") :
    specOmitEmpty k (jsOr v dflt) =
      [(k, if truthyS v then v.getD "" else dflt)] := by
  cases v with
  | none => simp [jsOr, specOmitEmpty, truthyS, hd]
  | some s =>
    by_cases h : s = "" <;> simp [jsOr, specOmitEmpty, truthyS, h, hd]

/-! ### Claims -/

/-- Claim C6: for a null, absent, or empty list of email addresses,
`findRelatedRecords` returns the grouped result with all four groups empty
and dispatches no remote call at all. -/
theorem claim_C6 (env : RelatedEnv) :
    findRelatedRecords none env = ({}, []) ∧
    findRelatedRecords (some []) env = ({}, []) :=
  ⟨rfl, rfl⟩

/-- Claim C7: the `createContact` payload maps inputs to remote field names
and omits every field whose input value is empty or absent; in particular
firstName A, lastName B, empty email produces a payload with FirstName and
LastName but no Email key. -/
theorem claim_C7 :
    (∀ d : ContactInput,
      createContactPayload d =
        specOmitEmpty "FirstName" d.firstName ++ specOmitEmpty "LastName" d.lastName ++
        specOmitEmpty "Email" d.email ++ specOmitEmpty "Phone" d.phone ++
        specOmitEmpty "Title" d.title ++ specOmitEmpty "Department" d.department ++
        specOmitEmpty "Description" d.description) ∧
    createContactPayload
        { firstName := some "A", lastName := some "B", email := some "" } =
      [("FirstName", "A"), ("LastName", "B")] := by
  constructor
  · intro d
    simp [createContactPayload, keepTruthy_cons, keepTruthy_nil, List.append_assoc]
  · rfl

/-- Claim C10: the `createLead` payload always contains `Status` (the input
status when non-empty, else the default Open - Not Contacted) and
`LeadSource` (the input source when non-empty, else Email); every other
mapped field is omitted when its input value is empty or absent. -/
theorem claim_C10 (d : LeadInput) :
    createLeadPayload d =
      specOmitEmpty "FirstName" d.firstName ++ specOmitEmpty "LastName" d.lastName ++
      specOmitEmpty "Email" d.email ++ specOmitEmpty "Phone" d.phone ++
      specOmitEmpty "Company" d.company ++ specOmitEmpty "Title" d.title ++
      [("Status", if truthyS d.status then d.status.getD "" else "Open - Not Contacted")] ++
      [("LeadSource", if truthyS d.source then d.source.getD "" else "Email")] ++
      specOmitEmpty "Description" d.description := by
  have hs := specOmit_jsOr "Status" d.status "Open - Not Contacted" (by decide)
  have hl := specOmit_jsOr "LeadSource" d.source "Email" (by decide)
  simp [createLeadPayload, keepTruthy_cons, keepTruthy_nil, hs, hl, List.append_assoc]

/-- Claim C1, counterexample: with one email address, the Contact query
failing and the Lead query ready to return a record, the returned `leads`
group is empty (the lead query is never dispatched), contradicting the
claim that `leads` is populated from the Lead query. -/
theorem claim_C1_counterexample :
    envC1.leadQ = Except.ok { records := some [leadRecC1] } ∧
    (findRelatedRecords (some ["x@y.com"]) envC1).1.leads = [] ∧
    (findRelatedRecords (some ["x@y.com"]) envC1).2 =
      [(QueryKind.contact, relatedContactQuery (emailListStr ["x@y.com"]))] :=
  ⟨rfl, rfl, rfl⟩

/-- Claim C1, amended: for every non-empty address list, if the Contact
query fails then `findRelatedRecords` returns with all four groups empty
and only the contact query dispatched (in particular the Lead query is
skipped, so `leads` is empty even when that query would have succeeded);
the function never raises — the failure is absorbed by the catch. -/
theorem claim_C1_amended (emails : List String) (env : RelatedEnv)
    (hne : emails ≠ []) (hfail : env.contactQ = .error ()) :
    findRelatedRecords (some emails) env =
      ({}, [(QueryKind.contact, relatedContactQuery (emailListStr emails))]) := by
  cases emails with
  | nil => exact absurd rfl hne
  | cons e es => simp [findRelatedRecords, hfail]

/-- Claim C1, witness: the amended statement evaluated on one address with
a failing Contact query. -/
theorem claim_C1_witness :
    findRelatedRecords (some ["x@y.com"]) envC1 =
      ({}, [(QueryKind.contact, relatedContactQuery (emailListStr ["x@y.com"]))]) :=
  claim_C1_amended ["x@y.com"] envC1 (List.cons_ne_nil _ _) rfl

/-- Claim C2, counterexample: a session whose `issued_at` is present but
unparseable is reported NOT expired (the `NaN` comparison is false), while
the claim requires `true`. -/
theorem claim_C2_counterexample :
    isTokenExpired sessionUnparseable 9999999999999 = false := rfl

/-- Claim C2, amended: the expiry check returns true when `issued_at` is
absent or empty; when `issued_at` is present but unparseable it returns
FALSE (the JS `NaN` comparison), not true; when it parses, the check
returns true exactly when `now - issuedAt` exceeds the 2-hour window. -/
theorem claim_C2_amended (session : SessionData) (now : Int) :
    (truthyS session.issued_at = false → isTokenExpired session now = true) ∧
    (∀ s, session.issued_at = some s → s ≠ "" → parseIntJS s = none →
      isTokenExpired session now = false) ∧
    (∀ s i, session.issued_at = some s → s ≠ "" → parseIntJS s = some i →
      (isTokenExpired session now = true ↔ now - i > 2 * 60 * 60 * 1000)) := by
  refine ⟨?_, ?_, ?_⟩
  · intro h
    cases hs : session.issued_at with
    | none => simp [isTokenExpired, hs]
    | some s =>
      rw [hs] at h
      simp only [truthyS, ne_eq, decide_eq_false_iff_not, not_not] at h
      simp [isTokenExpired, hs, h]
  · intro s hs hne hp
    simp [isTokenExpired, hs, hne, hp]
  · intro s i hs hne hp
    simp [isTokenExpired, hs, hne, hp]

/-- Claim C2, witness: the amended statement evaluated on a session issued
at timestamp 0 and a `now` far beyond the validity window. -/
theorem claim_C2_witness :
    isTokenExpired sessionIssuedAt0 9999999999999 = true :=
  ((claim_C2_amended sessionIssuedAt0 9999999999999).2.2 "0" 0 rfl (by decide) rfl).2
    (by decide)

/-- Claim C3, counterexample: original request answers 401 and the refresh
attempt fails because the persisted session has no refresh token — the call
fails with the AuthExpired error, but the persisted session is NOT cleared,
contradicting the claim that it has been cleared whenever the refresh
attempt fails. -/
theorem claim_C3_counterexample :
    (apiCall stNoRefresh env401).result = Except.error ApiError.authExpired ∧
    (apiCall stNoRefresh env401).state.store ≠ Persisted.empty :=
  ⟨rfl, by decide⟩

/-- Claim C3, amended: after a 401 on the original request, any refresh
failure makes the call fail with AuthExpired; the persisted session is
cleared exactly when the refresh's own token request is rejected (e.g. two
consecutive 401s) — a refresh failing for want of a refresh token leaves
the store untouched; and a successful refresh followed by a failing retry
also fails with AuthExpired. -/
theorem claim_C3_amended (st : SvcState) (env : ApiEnv)
    (htok : truthyS st.accessToken = true) (h401 : env.resp1.status = 401) :
    ((refreshTokenM st env.refreshResp).1.isSome = true →
      (apiCall st env).result = .error .authExpired) ∧
    (∀ s, st.store = .valid s → truthyS s.refresh_token = true →
      respOk env.refreshResp.status = false →
      (apiCall st env).result = .error .authExpired ∧
        (apiCall st env).state.store = .empty) ∧
    ((refreshTokenM st env.refreshResp).1 = none → respOk env.resp2.status = false →
      (apiCall st env).result = .error .authExpired) := by
  have hres : resolveCreds st = .ok st := by simp [resolveCreds, htok]
  have hmain : apiCall st env = handle401 st env := by
    simp [apiCall, hres, mainPhase, h401]
  refine ⟨?_, ?_, ?_⟩
  · intro h
    rw [hmain]
    unfold handle401
    rcases hrf : refreshTokenM st env.refreshResp with ⟨err, st2⟩
    cases err with
    | none => rw [hrf] at h; simp at h
    | some e => simp
  · intro s hstore hrt hnok
    have hrf : refreshTokenM st env.refreshResp =
        (some .refreshExpired, { st with store := .empty }) := by
      simp [refreshTokenM, hstore, hrt, hnok]
    rw [hmain]
    unfold handle401
    rw [hrf]
    exact ⟨rfl, rfl⟩
  · intro hok hnok
    rw [hmain]
    unfold handle401
    rcases hrf : refreshTokenM st env.refreshResp with ⟨err, st2⟩
    cases err with
    | some e => simp
    | none =>
      have : retryPhase env.resp2 = .error .jsonError := by
        simp [retryPhase, hnok]
      simp [this]

/-- Claim C3, witness: two consecutive 401 responses on a refreshable
session — AuthExpired and a cleared store. -/
theorem claim_C3_witness :
    (apiCall stRefreshable envDouble401).result = Except.error ApiError.authExpired ∧
    (apiCall stRefreshable envDouble401).state.store = Persisted.empty :=
  (claim_C3_amended stRefreshable envDouble401 rfl rfl).2.1 sessWithRT rfl rfl rfl

/-- Claim C4: every `apiCall` invocation issues at most two API request
attempts (original plus at most one retry), and the retry fetch is issued
only when the original attempt answered 401. -/
theorem claim_C4 (st : SvcState) (env : ApiEnv) :
    (apiCall st env).attempts ≤ 2 ∧
    ((apiCall st env).retried = true → env.resp1.status = 401) := by
  unfold apiCall mainPhase handle401
  repeat' split
  all_goals simp_all

/-- Claim C4, witness: the bound evaluated on a concrete 401-then-401 run. -/
theorem claim_C4_witness :
    (apiCall stRefreshable envDouble401).attempts ≤ 2 ∧
    ((apiCall stRefreshable envDouble401).retried = true →
      envDouble401.resp1.status = 401) :=
  claim_C4 stRefreshable envDouble401

/-- Claim C5, counterexample: original 401, successful refresh, then a 204
retry response — the code calls `retryResponse.json()` on the empty body,
the parse failure is caught, and the call fails with AuthExpired instead of
returning the empty structured result the claim requires. -/
theorem claim_C5_counterexample :
    (apiCall stRefreshable envRetry204).result = Except.error ApiError.authExpired ∧
    (apiCall stRefreshable envRetry204).result ≠ Except.ok ApiResult.emptyObj :=
  ⟨rfl, fun h => Except.noConfusion h⟩

/-- Claim C5, amended: a 204 on the original attempt returns the empty
structured result without touching the body; but a 204 on the
401-triggered retry is treated like any ok response — its body is parsed,
the retry never produces the empty structured result, and with the real
empty body of a 204 the parse failure surfaces as AuthExpired. -/
theorem claim_C5_amended (st : SvcState) (env : ApiEnv)
    (htok : truthyS st.accessToken = true) :
    (env.resp1.status = 204 → (apiCall st env).result = .ok .emptyObj) ∧
    (env.resp1.status = 401 → (refreshTokenM st env.refreshResp).1 = none →
      env.resp2.status = 204 →
      (apiCall st env).result ≠ .ok .emptyObj ∧
        (env.resp2.parses = false →
          (apiCall st env).result = .error .authExpired)) := by
  have hres : resolveCreds st = .ok st := by simp [resolveCreds, htok]
  have happ : apiCall st env = mainPhase st env := by simp [apiCall, hres]
  constructor
  · intro h204
    rw [happ]
    unfold mainPhase
    rw [h204]
    simp [respOk]
  · intro h401 hok h204
    have hmain : apiCall st env = handle401 st env := by
      rw [happ]; unfold mainPhase; rw [h401]; simp
    rw [hmain]
    unfold handle401
    rcases hrf : refreshTokenM st env.refreshResp with ⟨err, st2⟩
    cases err with
    | some e => rw [hrf] at hok; simp at hok
    | none =>
      have hrok : respOk env.resp2.status = true := by rw [h204]; rfl
      cases hp : env.resp2.parses with
      | true => simp [retryPhase, hrok, hp]
      | false => simp [retryPhase, hrok, hp]

/-- Claim C5, witness: a 204 on the original attempt yields the empty
structured result. -/
theorem claim_C5_witness :
    (apiCall stRefreshable env204).result = Except.ok ApiResult.emptyObj :=
  (claim_C5_amended stRefreshable env204 rfl).1 rfl

/-- Claim C8, counterexample: with an empty in-memory cache and malformed
persisted data, `apiCall` propagates the JSON parse exception — a
SyntaxError, not the NotAuthenticated failure that treating malformed data
as absence would produce. -/
theorem claim_C8_counterexample :
    (apiCall { store := Persisted.malformed } envAny).result =
      Except.error ApiError.syntaxError ∧
    ApiError.syntaxError ≠ ApiError.notAuthenticated :=
  ⟨rfl, by decide⟩

/-- Claim C8, amended: the session-info accessor and `isAuthenticated`
treat malformed persisted data as the absence of a session (returning none
or false, never raising); but `apiCall`'s read-through on an empty cache
runs `JSON.parse` unguarded, so malformed data propagates a parse
exception (before any remote attempt) rather than being treated as
absence, while a genuinely absent session fails with NotAuthenticated. -/
theorem claim_C8_amended :
    (getSessionInfo .malformed = none ∧ getSessionInfo .empty = none) ∧
    isAuthenticated .malformed = false ∧
    (∀ env : ApiEnv,
      (apiCall { store := .malformed } env).result = .error .syntaxError ∧
      (apiCall { store := .malformed } env).attempts = 0) ∧
    (∀ env : ApiEnv,
      (apiCall { store := .empty } env).result = .error .notAuthenticated) :=
  ⟨⟨rfl, rfl⟩, rfl, fun _ => ⟨rfl, rfl⟩, fun _ => rfl⟩

/-- Claim C9, counterexample: a persisted session with both credentials but
no `issued_at` is reported authenticated even though it is not usable under
the spec's invariant (missing `issued_at` counts as expired), so the
claimed equivalence fails. -/
theorem claim_C9_counterexample :
    isAuthenticated (Persisted.valid sessionNoIssuedAt) = true ∧
    usableSessionSpec sessionNoIssuedAt 0 = false :=
  ⟨rfl, rfl⟩

/-- Claim C9, amended: `isAuthenticated` returns true iff the persisted
session parses and has `access_token` and `instance_url` both present; it
performs no validity-window check, so every usable session is reported
authenticated but the converse fails. -/
theorem claim_C9_amended :
    (∀ (s : SessionData) (now : Int), usableSessionSpec s now = true →
      isAuthenticated (.valid s) = true) ∧
    (∀ store : Persisted, isAuthenticated store = true ↔
      ∃ s, store = .valid s ∧ truthyS s.access_token = true ∧
        truthyS s.instance_url = true) := by
  constructor
  · intro s now h
    simp only [usableSessionSpec, Bool.and_eq_true] at h
    simp [isAuthenticated, h.1.1, h.1.2]
  · intro store
    cases store with
    | empty => simp [isAuthenticated]
    | malformed => simp [isAuthenticated]
    | valid s => simp [isAuthenticated]

/-- Claim C9, witness: a fresh full session is both usable and reported
authenticated. -/
theorem claim_C9_witness :
    isAuthenticated (Persisted.valid sessionFresh) = true :=
  claim_C9_amended.1 sessionFresh 0 rfl

end Sf
